import Mathlib

/-!
Verification of the PySwitchLib MLX ACL subsystem.

Shallow embedding of the field parsers of
`src/pyswitch/snmp/base/acl/ipacl.py` (class `IpAcl`) and of the
orchestrator operations of `src/pyswitch/snmp/mlx/base/acl/acl.py`
(class `Acl`).

Conventions of the embedding:
- A Python keyword-parameter bag is a `Params` association list from
  field name to a dynamically typed `Value`; Python truthiness is the
  `truthy` function.
- Python exceptions are modelled with `Except Err`: `ValueError` as
  `Err.valueError` (quote characters of the original messages are
  omitted from the embedded message strings), `KeyError` as
  `Err.keyError`, an unbound local variable (`NameError`) as
  `Err.nameError`, and an operation on a value of the wrong dynamic
  type (`TypeError`/`AttributeError`) as `Err.typeError`.
- The command executor (`self._callback`) is an oracle
  `Cb : String → List String → String` from handler and command batch
  to raw device output; orchestrator functions additionally return the
  ordered trace of submitted batches.  A callback invoked on a bare
  command string in the source is modelled as a singleton batch.
- The Python whitespace-collapsing idiom (join of split) is
  `pyCollapse`, splitting on the newline character is `pySplitNl`,
  the isdigit method is `pyIsDigitStr`, the find method and the
  substring membership test are `strFind`/`strContains`, and the
  regex substitution deleting every character outside the class
  A-Za-z0-9 space dot hyphen is `stripDisallowed`.
-/

namespace PySwitchLib

/-- A dynamically typed parameter value (string, integer or boolean),
as passed in a Python keyword-argument bag. -/
inductive Value where
  | str : String → Value
  | int : Int → Value
  | bool : Bool → Value
deriving DecidableEq, Repr

/-- A Python keyword-parameter bag: field name to value. -/
abbrev Params := List (String × Value)

/-- Dictionary lookup `parameters.get(k)`. -/
def getParam (params : Params) (k : String) : Option Value :=
  (params.find? (fun kv => kv.1 == k)).map (fun kv => kv.2)

/-- Python `k in parameters`. -/
def hasKey (params : Params) (k : String) : Bool :=
  (getParam params k).isSome

/-- Python truthiness of a value. -/
def truthy : Value → Bool
  | .str s => s ≠ ""
  | .int n => n ≠ 0
  | .bool b => b

/-- Python `k in parameters and parameters[k]` (present and truthy). -/
def keyTruthy (params : Params) (k : String) : Bool :=
  match getParam params k with
  | some v => truthy v
  | none => false

/-- Embedded Python exceptions. -/
inductive Err where
  | valueError : String → Err
  | keyError : String → Err
  | nameError : String → Err
  | typeError : String → Err
deriving DecidableEq, Repr

/-- Python `parameters[k]`: `KeyError` when the key is absent. -/
def getItem (params : Params) (k : String) : Except Err Value :=
  match getParam params k with
  | some v => .ok v
  | none => .error (.keyError k)

/-- Python whitespace characters recognised by `str.split()`. -/
def pyIsSpace (c : Char) : Bool :=
  c = ' ' || c = '\t' || c = '\n' || c = '\r' || c = '\x0b' || c = '\x0c'

/-- Helper of `pyWordsList`: split into maximal non-whitespace runs,
carrying the (reversed) current word. -/
def wordsGo : List Char → List Char → List (List Char)
  | [], acc => if acc.isEmpty then [] else [acc.reverse]
  | c :: rest, acc =>
    if pyIsSpace c then
      if acc.isEmpty then wordsGo rest [] else acc.reverse :: wordsGo rest []
    else wordsGo rest (c :: acc)

/-- Python `s.split()` on a character list: maximal non-whitespace runs. -/
def pyWordsList (cs : List Char) : List (List Char) := wordsGo cs []

/-- Python single-space join of a word list, on character lists. -/
def joinWords : List (List Char) → List Char
  | [] => []
  | [w] => w
  | w :: ws => w ++ ' ' :: joinWords ws

/-- Python whitespace collapse (single-space join of split) on a character list. -/
def pyCollapseList (cs : List Char) : List Char := joinWords (pyWordsList cs)

/-- Python whitespace collapse (single-space join of split): collapse
runs of whitespace to single spaces and trim both ends. -/
def pyCollapse (s : String) : String := ⟨pyCollapseList s.data⟩

/-- Python `s.split()` returning strings. -/
def pyWords (s : String) : List String :=
  (pyWordsList s.data).map (fun w => ⟨w⟩)

/-- Helper of `splitOnChar`: split at every occurrence of the
separator, keeping empty pieces, carrying the (reversed) current
piece. -/
def splitOnCharGo (sep : Char) : List Char → List Char → List (List Char)
  | [], acc => [acc.reverse]
  | c :: rest, acc =>
    if c = sep then acc.reverse :: splitOnCharGo sep rest []
    else splitOnCharGo sep rest (c :: acc)

/-- Python `s.split(sep)` for a one-character separator (the only form
the embedded source uses): empty pieces are kept. -/
def splitOnChar (s : String) (sep : Char) : List String :=
  (splitOnCharGo sep s.data []).map (fun w => ⟨w⟩)

/-- Python split on the newline character. -/
def pySplitNl (s : String) : List String := splitOnChar s '\n'

/-- Python `s.isdigit()` for ASCII content. -/
def pyIsDigitStr (s : String) : Bool :=
  s ≠ "" && s.data.all (fun c => c.isDigit)

/-- Python `int(s)` for a digit string. -/
def pyStrToNat (s : String) : Nat :=
  s.data.foldl (fun a c => a * 10 + (c.toNat - 48)) 0

/-- Python `s[0:n]`. -/
def strTakeN (s : String) (n : Nat) : String := ⟨s.data.take n⟩

/-- Python `s[n:]`. -/
def strDropN (s : String) (n : Nat) : String := ⟨s.data.drop n⟩

/-- Helper of `strFind`: first index at which `needle` occurs. -/
def subFindAux (needle : List Char) : List Char → Nat → Option Nat
  | [], i => if needle.isEmpty then some i else none
  | c :: rest, i =>
    if needle.isPrefixOf (c :: rest) then some i
    else subFindAux needle rest (i + 1)

/-- Python `hay.find(needle)` (as an `Option` instead of `-1`). -/
def strFind (hay needle : String) : Option Nat :=
  subFindAux needle.data hay.data 0

/-- Python `needle in hay` substring test. -/
def strContains (hay needle : String) : Bool :=
  (strFind hay needle).isSome

/-- Python idiom for the part of a line before the first colon
(index zero of the split on the colon character). -/
def beforeColon (line : String) : String :=
  (splitOnChar line ':').headD ""

/-- The character class kept by the regex substitution of the rule-body
post-processing: A-Za-z0-9, space, dot and hyphen. -/
def isAllowedChar (c : Char) : Bool :=
  ('a' ≤ c && c ≤ 'z') || ('A' ≤ c && c ≤ 'Z') ||
    ('0' ≤ c && c ≤ '9') || c = ' ' || c = '.' || c = '-'

/-- Embeds the regex substitution of the rule-body post-processing:
drop every character outside the allowed class. -/
def stripDisallowed (s : String) : String :=
  ⟨s.data.filter isAllowedChar⟩

/-- Every character of `s` lies in the class `[A-Za-z0-9 .-]`. -/
def allAllowed (s : String) : Bool :=
  s.data.all isAllowedChar

/-- Python method call such as `.split()`/`.isdigit()` on a dynamic value:
succeeds on strings, raises `AttributeError`/`TypeError` otherwise. -/
def asStr : Value → Except Err String
  | .str s => .ok s
  | _ => .error (.typeError "string method on non-string value")

/-- The opening condition of `IpAcl.parse_log` and `IpAcl.parse_mirror`
(ipacl.py:223, ipacl.py:611): key membership OR falsiness of the item,
with Python short-circuit evaluation, so when the key is absent the
right-hand operand raises `KeyError`. -/
def keyInOrNotTruthy (params : Params) (k : String) : Except Err Bool :=
  if hasKey params k then .ok true
  else do
    let v ← getItem params k
    pure (truthy v = false)

def logMirrorConflictMsg : String :=
  "log and mirror keywords can not be used together"

/-- Embeds `IpAcl.parse_log` (ipacl.py:211-229). -/
def parse_log (params : Params) : Except Err (Option String) := do
  let c1 ← keyInOrNotTruthy params "log"
  if c1 then return none
  let c2 ← keyInOrNotTruthy params "mirror"
  if c2 then return (some "log")
  throw (.valueError logMirrorConflictMsg)

/-- The inequality test of the action value against the literal permit
in `IpAcl.parse_mirror` (ipacl.py:615); a non-string value never equals
the string permit. -/
def actionNotPermit (params : Params) : Bool :=
  match getParam params "action" with
  | some (.str s) => s ≠ "permit"
  | some _ => true
  | none => true

def mirrorPermitMsg : String :=
  " Mirror keyword is applicable only for ACL permit clauses"

/-- Embeds `IpAcl.parse_mirror` (ipacl.py:598-622). -/
def parse_mirror (params : Params) : Except Err (Option String) := do
  let c1 ← keyInOrNotTruthy params "mirror"
  if c1 then return none
  if keyTruthy params "action" && actionNotPermit params then
    throw (.valueError mirrorPermitMsg)
  let c2 ← keyInOrNotTruthy params "log"
  if c2 then return (some "mirror")
  throw (.valueError logMirrorConflictMsg)

def vlanInvalidMsg : String :=
  "The vlan value \x7b\x7d is invalid. Specify 1-4095 supported values"

/-- Embeds `IpAcl.parse_vlan` (ipacl.py:185-209).  A Python `bool` is an `int`
(`True` compares as `1` and renders as `"True"`). -/
def parse_vlan (params : Params) : Except Err (Option String) :=
  match getParam params "vlan_id" with
  | none => .ok none
  | some v =>
    if truthy v = false then .ok none
    else
      match v with
      | .int vlan =>
        if 0 < vlan && vlan < 4096 then .ok (some (toString vlan))
        else .error (.valueError vlanInvalidMsg)
      | .bool _ => .ok (some "True")
      | .str _ => .error (.typeError "order comparison of str and int")

/-- The ~140 named IANA protocol keywords of `IpAcl.parse_protocol`
(ipacl.py:259-288). -/
def protocolKeywords : List String :=
  ["a_n", "ahp", "argus", "aris", "ax25",
   "bbn-rcc", "bna", "br-sat-mon", "cbt",
   "cftp", "chaos", "compaq-peer", "cphb",
   "cpnx", "crdup", "crtp", "dcn", "ddp", "ddx",
   "dgp", "divert", "egp", "emcon", "encap",
   "esp", "etherip", "fc", "fire", "ggp", "gmtp",
   "gre", "hip", "hmp", "i-nlsp", "iatp", "icmp",
   "idpr", "idpr-cmtp", "idrp", "ifmp", "igmp",
   "igp", "igrp", "il", "ip", "ipcomp", "ipcv",
   "ipencap", "ipip", "iplt", "ippc", "ipv6",
   "ipv6-frag", "ipv6-icmp", "ipv6-nonxt",
   "ipv6-opts", "ipv6-route", "ipx-in-ip",
   "irtp", "isis", "iso-ip", "iso-tp4",
   "kryptolan", "l2tp", "larp", "leaf-1",
   "leaf-2", "manet", "merit-inp", "mfe-nsp",
   "mhrp", "micp", "mobile", "mobility-header",
   "mpls-in-ip", "mtp", "mux", "narp", "netblt",
   "nsfnet-igp", "nvp", "ospf", "pgm", "pim",
   "pipe", "pnni", "prm", "ptp", "pup", "pvp",
   "qnx", "rdp", "rsvp", "rsvp-e2e-ignore",
   "rvd", "sat-expak", "sat-mon", "scc-sp",
   "scps", "sctp", "sdrp", "secure-vmtp", "sep",
   "shim6", "skip", "sm", "smp", "snp",
   "sprite-rpc", "sps", "srp", "sscopmce", "st",
   "st2", "sun-nd", "swipe", "tcf", "tcp",
   "third-pc", "tlsp", "tp++", "trunk-1",
   "trunk-2", "ttp", "udp", "udplite", "uti",
   "vines", "visa", "vlan", "vmtp", "vrrp",
   "wb-expak", "wb-mon", "wsn", "xnet",
   "xns-idp", "xtp"]

/-- Embeds `IpAcl.parse_protocol` (ipacl.py:231-292).  Note the source has no
early return after the numeric range check: a digit string that passes
the `0-255` range test still falls through to the keyword-membership
test. -/
def parse_protocol (params : Params) : Except Err (Option String) :=
  match getParam params "protocol_type" with
  | none => .ok none
  | some v =>
    if truthy v = false then .ok none
    else do
      let s ← asStr v
      if pyIsDigitStr s &&
          (((pyStrToNat s : Int) < 0) || ((pyStrToNat s : Int) > 255)) then
        throw (.valueError ("The protocol value " ++ s ++
          " is invalid. Specify 0-255 supported values"))
      if protocolKeywords.contains s = false then
        throw (.valueError ("invalid protocol_type value " ++ s ++ "."))
      return some s

def priorityConflictMsg : String :=
  "priority and priority-force can not be enabled at the same time!"

/-- Embeds `IpAcl.parse_priority` (ipacl.py:490-516). -/
def parse_priority (params : Params) : Except Err (Option String) :=
  if keyTruthy params "priority" = false then .ok none
  else if keyTruthy params "priority_force" then
    .error (.valueError priorityConflictMsg)
  else
    match getParam params "priority" with
    | some (.int p) =>
      if 0 ≤ p && p ≤ 7 then .ok (some ("priority " ++ toString p))
      else .error (.valueError ("Invalid priority " ++ toString p ++
        ". Allowed value in decimal <0-7>."))
    | some (.bool _) => .ok (some "priority True")
    | _ => .error (.typeError "order comparison of str and int")

/-- Embeds `IpAcl.parse_priority_force` (ipacl.py:518-546). -/
def parse_priority_force (params : Params) : Except Err (Option String) :=
  if keyTruthy params "priority_force" = false then .ok none
  else if keyTruthy params "priority" then
    .error (.valueError priorityConflictMsg)
  else
    match getParam params "priority_force" with
    | some (.int p) =>
      if 0 ≤ p && p ≤ 7 then .ok (some ("priority-force " ++ toString p))
      else .error (.valueError ("Invalid priority_force " ++ toString p ++
        ". Allowed value in decimal <0-7>."))
    | some (.bool _) => .ok (some "priority-force True")
    | _ => .error (.typeError "order comparison of str and int")

/-- The tcp/udp operator tokens scanned by `IpAcl._parse_source_destination`
and `IpAcl._is_tcp_udp_opstr_set`, in source order. -/
def tcpUdpOpTokens : List String := ["range", "neq", "lt", "gt", "eq"]

def optionOpstrMsg : String :=
  "option keyword cannot be used along with TCP destination port matching"

/-- Embeds `IpAcl._is_tcp_udp_opstr_set` (ipacl.py:410-416): raises when any
operator token occurs in the given string. -/
def isTcpUdpOpstrSet (inputParam : String) : Except Err Bool :=
  if tcpUdpOpTokens.any (fun t => strContains inputParam t) then
    .error (.valueError optionOpstrMsg)
  else .ok true

/-- The membership test of the protocol_type value in the two-element
list of the literals tcp and udp. -/
def valueIsTcpOrUdp (v : Value) : Bool :=
  v == .str "tcp" || v == .str "udp"

/-- The guard of `IpAcl.parse_option` (ipacl.py:438-439): protocol_type
present, truthy, and a member of the tcp/udp literal list. -/
def protoIsTcpUdp (params : Params) : Bool :=
  match getParam params "protocol_type" with
  | some v => truthy v && valueIsTcpOrUdp v
  | none => false

/-- The IP-option keywords of `IpAcl.parse_option` (ipacl.py:457-461). -/
def optionKeywords : List String :=
  ["any", "eol", "extended-security",
   "ignore", "loose-source-route",
   "no-op", "record-route", "router-alert",
   "security", "streamid",
   "strict-source-route", "timestamp"]

/-- The block of `IpAcl.parse_option` guarded by a tcp/udp protocol type
(ipacl.py:441-449).  On source line 448 the collapsed destination is
computed from the local variable `src` rather than from the
destination value: the destination check re-examines `src`, and when
the source block did not run, `src` is unbound (`NameError`). -/
def parseOptionOpstrChecks (params : Params) : Except Err Unit := do
  let srcOpt : Option String ←
    (if keyTruthy params "source" then do
      let sv ← getItem params "source"
      let s ← asStr sv
      let src := pyCollapse s
      let _ ← isTcpUdpOpstrSet src
      pure (some src)
    else pure none)
  if keyTruthy params "destination" then
    match srcOpt with
    | none => throw (.nameError "src")
    | some src => do
      let dst := pyCollapse src
      let _ ← isTcpUdpOpstrSet dst
      pure ()
  else pure ()

/-- Embeds `IpAcl.parse_option` (ipacl.py:418-470). -/
def parse_option (params : Params) : Except Err (Option String) :=
  if keyTruthy params "option" = false then .ok none
  else do
    if protoIsTcpUdp params then parseOptionOpstrChecks params
    let ov ← getItem params "option"
    let os ← asStr ov
    let option := pyCollapse os
    if pyIsDigitStr option &&
        (((pyStrToNat option : Int) ≥ 0) && ((pyStrToNat option : Int) ≤ 255)) then
      return some ("option " ++ option)
    if optionKeywords.contains option then
      return some ("option " ++ option)
    throw (.valueError ("Invalid option " ++ option ++
      ". Supported values are any, eol, extended-security, ignore, " ++
      "loose-source-route no-op, record-route, router-alert, security, " ++
      "streamid, strict-source-route, timestamp Allowed value in decimal <0-255>."))

/-- Models the external C library routine `socket.inet_aton` on the
dotted-decimal forms relevant to this repository: one to four
dot-separated decimal parts, the last part filling the remaining bytes
(the hex/octal part syntax also accepted by the C routine is not used
here and is not modelled). -/
def inet_aton_ok (s : String) : Bool :=
  let parts := splitOnChar s '.'
  parts.all (fun p => pyIsDigitStr p) &&
    match parts with
    | [a, b, c, d] => pyStrToNat a < 256 && pyStrToNat b < 256 &&
        pyStrToNat c < 256 && pyStrToNat d < 256
    | [a, b, c] => pyStrToNat a < 256 && pyStrToNat b < 256 &&
        pyStrToNat c < 65536
    | [a, b] => pyStrToNat a < 256 && pyStrToNat b < 16777216
    | [a] => pyStrToNat a < 4294967296
    | _ => false

/-- Embeds `IpAcl._validate_ipv4` (ipacl.py:63-68). -/
def validate_ipv4 (addr : String) : Except Err Unit :=
  let a := pyCollapse addr
  if inet_aton_ok a then .ok ()
  else .error (.valueError ("Invalid address: " ++ a))

/-- Embeds `IpAcl._validate_op_str` (ipacl.py:50-61). -/
def validate_op_str (opStr : String) : Except Err Bool :=
  let toks := pyWords (pyCollapse opStr)
  if toks.length = 2 then
    if (toks.headD "" = "neq" || toks.headD "" = "lt" ||
        toks.headD "" = "gt" || toks.headD "" = "eq") &&
        pyIsDigitStr (toks.getD 1 "") then .ok true
    else .error (.valueError ("Invalid tcp-udp-operator: " ++
      String.intercalate " " toks))
  else if toks.length = 3 && toks.headD "" = "range" then .ok true
  else .error (.valueError ("Invalid tcp-udp-operator: " ++
    String.intercalate " " toks))

/-- The operator scan of `IpAcl._parse_source_destination`
(ipacl.py:72-80): the first token (in list order) found anywhere in the
input splits it into the address part and the operator part. -/
def scanOpGo (input : String) : List String → String × String
  | [] => (input, "")
  | t :: ts =>
    match strFind input t with
    | some i => (strTakeN input i, strDropN input i)
    | none => scanOpGo input ts

def scanOp (input : String) : String × String :=
  scanOpGo input tcpUdpOpTokens

def tcpUdpOnlyMsg : String :=
  "tcp udp operator is supported only for.protocol_type = tcp or udp"

/-- Embeds `IpAcl._parse_source_destination` (ipacl.py:70-116).  The dead test
`int(prefix_len) < 0 and int(prefix_len) > 32` of line 108 is kept as
in the source (its conjunction never holds). -/
def parse_source_destination (protocolType : Value) (inputParam : String) :
    Except Err String := do
  let (v4, op) := scanOp inputParam
  if valueIsTcpOrUdp protocolType = false && op ≠ "" then
    throw (.valueError tcpUdpOnlyMsg)
  if op ≠ "" then
    let _ ← validate_op_str op
  if strTakeN v4 3 = "any" then
    return v4 ++ " " ++ op
  if strTakeN v4 4 = "host" then
    -- the source applies `_validate_ipv4(v4_str[5:])` and ignores any failure
    return v4 ++ " " ++ op
  if strContains v4 "/" then
    match splitOnChar v4 '/' with
    | [ip, prefixLen] => do
      validate_ipv4 ip
      if pyIsDigitStr prefixLen = false then
        throw (.valueError ("Invalid address: " ++ v4))
      if ((pyStrToNat prefixLen : Int) < 0) && ((pyStrToNat prefixLen : Int) > 32) then
        throw (.valueError ("Invalid address: " ++ v4))
      return v4 ++ " " ++ op
    | _ => throw (.valueError "too many values to unpack")
  else
    match pyWords v4 with
    | [ip, mask] => do
      validate_ipv4 ip
      validate_ipv4 mask
      return v4 ++ " " ++ op
    | _ => throw (.valueError "unpacking of v4_str.split() failed")

/-- Embeds `IpAcl.parse_source` (ipacl.py:118-139). -/
def parse_source (params : Params) : Except Err String := do
  if keyTruthy params "source" = false then
    throw (.valueError "Missing source in parameters")
  let sv ← getItem params "source"
  let s ← asStr sv
  let src := pyCollapse s
  let pt ← getItem params "protocol_type"
  parse_source_destination pt src

/-- Embeds `IpAcl.parse_destination` (ipacl.py:141-166). -/
def parse_destination (params : Params) : Except Err (Option String) := do
  if keyTruthy params "destination" = false then return none
  if keyTruthy params "protocol_type" = false then
    throw (.valueError "protocol_type is required for MLX device")
  let dv ← getItem params "destination"
  let s ← asStr dv
  let dst := pyCollapse s
  let pt ← getItem params "protocol_type"
  let r ← parse_source_destination pt dst
  return some r

/-- One call to the command executor: handler mode and command batch.
A callback invoked on a bare command string in the source is modelled
as a singleton batch. -/
structure Batch where
  handler : String
  cmds : List String
deriving DecidableEq, Repr

/-- The command-executor oracle `self._callback`: handler and batch to
raw device output. -/
abbrev Cb := String → List String → String

def showAccessListAllCmd : String := "show access-list all"

def showIpv6AccessListCmd : String := "show ipv6 access-list"

/-- The two listing queries issued unconditionally by
`Acl.get_acl_address_and_acl_type` (acl.py:1055-1058). -/
def aclListingTrace : List Batch :=
  [⟨"cli-get", [showAccessListAllCmd]⟩, ⟨"cli-get", [showIpv6AccessListCmd]⟩]

/-- The resolved identity of an ACL as reported by the device listing. -/
structure AclId where
  protocol : String
  type : String
deriving DecidableEq, Repr

/-- The line-prefix classification of `Acl.get_acl_address_and_acl_type`
(acl.py:1062-1073). -/
def classifyLine (line : String) : Option AclId :=
  if strTakeN line 4 = "mac " then some ⟨"mac", "extended"⟩
  else if strTakeN line 3 = "ip " then
    some ⟨"ip", if strContains line "extended" then "extended" else "standard"⟩
  else if strTakeN line 5 = "ipv6 " then some ⟨"ipv6", "standard"⟩
  else none

def aclNotFoundMsg (aclName : String) : String :=
  "Failed to identify acl_type. Check if the ACL " ++ aclName ++ " exists"

/-- Embeds `Acl.get_acl_address_and_acl_type` (acl.py:1039-1080): the first
listing line containing the name decides (the loop breaks there even
when no prefix pattern matched, leaving the protocol empty). -/
def get_acl_address_and_acl_type (cb : Cb) (aclName : String) :
    Except Err AclId :=
  let res := pySplitNl (cb "cli-get" [showAccessListAllCmd]) ++
    pySplitNl (cb "cli-get" [showIpv6AccessListCmd])
  match res.find? (fun line => strContains line aclName) with
  | some line =>
    match classifyLine line with
    | some r => .ok r
    | none => .error (.valueError (aclNotFoundMsg aclName))
  | none => .error (.valueError (aclNotFoundMsg aclName))

/-- Embeds `Acl.get_address_type` (acl.py:1008-1021). -/
def get_address_type (cb : Cb) (aclName : String) : Except Err String :=
  (get_acl_address_and_acl_type cb aclName).map (fun r => r.protocol)

/-- Embeds `Acl.get_acl_type` (acl.py:1023-1037). -/
def get_acl_type (cb : Cb) (aclName : String) : Except Err String :=
  (get_acl_address_and_acl_type cb aclName).map (fun r => r.type)

/-- Modelled from the spec: `BaseAcl._process_cli_output`
(`pyswitch/snmp/base/acl/acl.py`, not under `src/`).  Per the spec the
response interpreter treats output as success unless it contains an
error marker, tolerating the benign already-exists outcome; anything
else is surfaced as `DeviceRejected` with the raw device text
attached. -/
def processCliOutput (op config output : String) : Except Err String :=
  if strContains output "already exists" then .ok (op ++ ": Successful")
  else if strContains output "Error" then
    .error (.valueError ("DeviceRejected: " ++ config ++ " " ++ output))
  else .ok (op ++ ": Successful")

/-- Modelled from the spec: `acl_template.delete_acl_template`
(`acl_template.py` is not under `src/`).  Section 6 gives the rendered
delete-command grammar `no <protocol> access-list <name>`; this is the
mac-protocol instance used by `Acl.delete_acl`. -/
def deleteAclTemplateRender (aclName : String) : String :=
  "no mac access-list " ++ aclName

/-- The delete command rendered by `Acl.delete_acl` (acl.py:139-149)
from the device-reported identity; `none` models the unreachable
final `else` branch that raises. -/
def renderDeleteCmd (ret : AclId) (aclName : String) : Option String :=
  if ret.protocol = "mac" then some (deleteAclTemplateRender aclName)
  else if ret.protocol = "ip" then
    some ("no ip access-list " ++ ret.type ++ " " ++ aclName)
  else if ret.protocol = "ipv6" then
    some ("no ipv6 access-list " ++ aclName)
  else none

/-- Embeds `Acl.delete_acl` (acl.py:109-152).  The caller supplies only the
ACL name (the parameter validator accepts nothing else of relevance);
protocol and type come from `get_acl_address_and_acl_type`. -/
def delete_acl (cb : Cb) (aclName : String) : List Batch × Except Err String :=
  match get_acl_address_and_acl_type cb aclName with
  | .error e => (aclListingTrace, .error e)
  | .ok ret =>
    match renderDeleteCmd ret aclName with
    | none => (aclListingTrace, .error (.valueError (ret.protocol ++ " not supported")))
    | some config =>
      let output := cb "cli-set" [config]
      (aclListingTrace ++ [⟨"cli-set", [config]⟩],
        processCliOutput "delete_acl" config output)

/-- Modelled from the spec: `acl_template.show_l2_access_list` /
`show_ip_access_list` / `show_ipv6_access_list` (`acl_template.py` is
not under `src/`): a rule-listing command scoped to the ACL resolved
protocol, as selected in `Acl.is_valid_seq_id` (acl.py:365-372). -/
def showListCmd (addressType aclName : String) : String :=
  "show " ++ addressType ++ " access-list " ++ aclName

/-- One line of the rule listing matches the sequence number when its
leading token before `:` is the decimal form of the number
(`Acl.is_valid_seq_id`, acl.py:384-394). -/
def lineSeqMatches (seqId : Int) (line : String) : Bool :=
  if line = "" then false
  else
    let t := pyCollapse (beforeColon line)
    pyIsDigitStr t && ((pyStrToNat t : Int) == seqId)

def seqIdInLines (output : String) (seqId : Int) : Bool :=
  (pySplitNl output).any (lineSeqMatches seqId)

def seqNotFoundMsg (seqId : Int) (aclName : String) : String :=
  toString seqId ++ " not exists for acl " ++ aclName

/-- Embeds `Acl.is_valid_seq_id` (acl.py:344-396), returning the trace of
executor calls alongside the result. -/
def is_valid_seq_id (cb : Cb) (seqId : Int) (aclName : String) :
    List Batch × Except Err Bool :=
  if aclName = "" then
    ([], .error (.valueError "Acl Name is manadatory parameter"))
  else if seqId == 0 then
    ([], .error (.valueError "Sequence Id is manadatory parameter"))
  else
    match get_address_type cb aclName with
    | .error e => (aclListingTrace, .error e)
    | .ok addressType =>
      if addressType = "mac" || addressType = "ip" || addressType = "ipv6" then
        let config := pyCollapse (showListCmd addressType aclName)
        let output := cb "cli-get" [config]
        let tr := aclListingTrace ++ [⟨"cli-get", [config]⟩]
        match processCliOutput "is_valid_seq_id" config output with
        | .error e => (tr, .error e)
        | .ok _ =>
          if seqIdInLines output seqId then (tr, .ok true)
          else (tr, .error (.valueError (seqNotFoundMsg seqId aclName)))
      else
        (aclListingTrace, .error (.valueError (addressType ++ " not supported")))

/-- Modelled from the spec: `acl_template.delete_rule_by_seq_id`
(`acl_template.py` is not under `src/`): renders the delete-by-sequence
command for one rule.  Section 6 gives `no` plus the sequence number
form for deletions. -/
def deleteRuleBySeqIdRender (seqId : Int) : String :=
  "no " ++ toString seqId

/-- Embeds `Acl.delete_ipv4_acl_rule` (acl.py:801-849): resolve the ACL type
from the device, validate the sequence id against the live rule
listing, and only then render and submit the two-command batch. -/
def delete_ipv4_acl_rule (cb : Cb) (aclName : String) (seqId : Int) :
    List Batch × Except Err String :=
  match get_acl_type cb aclName with
  | .error e => (aclListingTrace, .error e)
  | .ok aclType =>
    match is_valid_seq_id cb seqId aclName with
    | (tr, .error e) => (aclListingTrace ++ tr, .error e)
    | (tr, .ok _) =>
      let cli1 := "ip access-list " ++ " " ++ aclType ++ " " ++ aclName
      let config := pyCollapse (stripDisallowed (deleteRuleBySeqIdRender seqId))
      let output := cb "cli-set" [cli1, config]
      (aclListingTrace ++ tr ++ [⟨"cli-set", [cli1, config]⟩],
        processCliOutput "delete_ipv4_acl_rule" config output)

/-- Modelled from the spec: `acl_template.interface_submode_template`
(`acl_template.py` is not under `src/`): the interface-context probe
command for one interface. -/
def interfaceSubmodeRender (intfType intfName : String) : String :=
  "interface " ++ intfType ++ " " ++ intfName

/-- Modelled from the spec: `acl_template.apply_acl_template`
(`acl_template.py` is not under `src/`): the bind command for one
interface. -/
def applyAclRender (addressType aclName aclDirection : String) : String :=
  addressType ++ " access-group " ++ aclName ++ " " ++ aclDirection

/-- The first loop of `Acl.apply_acl` (acl.py:437-445): probe each
interface submode; a device error aborts the call. -/
def probeLoop (cb : Cb) (intfType : String) :
    List String → List Batch × Except Err Unit
  | [] => ([], .ok ())
  | intf :: rest =>
    let config := pyCollapse (interfaceSubmodeRender intfType intf)
    let output := cb "cli-set" [config]
    match processCliOutput "apply_acl" config output with
    | .error e => ([⟨"cli-set", [config]⟩], .error e)
    | .ok _ =>
      let r := probeLoop cb intfType rest
      (⟨"cli-set", [config]⟩ :: r.1, r.2)

/-- The second loop of `Acl.apply_acl` (acl.py:447-469): per interface,
submit submode + bind + exit as one batch; a pre-existing binding
(`Error: ` together with the ACL name in the output) is tolerated. -/
def bindLoop (cb : Cb) (aclName addressType intfType aclDirection : String) :
    List String → List Batch × Except Err Unit
  | [] => ([], .ok ())
  | intf :: rest =>
    let c1 := pyCollapse (interfaceSubmodeRender intfType intf)
    let c2 := pyCollapse (applyAclRender addressType aclName aclDirection)
    let cliArr := [c1, c2, "exit"]
    let output := cb "cli-set" cliArr
    if strContains output "Error: " && strContains output aclName then
      let r := bindLoop cb aclName addressType intfType aclDirection rest
      (⟨"cli-set", cliArr⟩ :: r.1, r.2)
    else
      match processCliOutput "apply_acl" c2 output with
      | .error e => ([⟨"cli-set", cliArr⟩], .error e)
      | .ok _ =>
        let r := bindLoop cb aclName addressType intfType aclDirection rest
        (⟨"cli-set", cliArr⟩ :: r.1, r.2)

/-- The port-channel rejection message of `Acl.apply_acl`
(acl.py:433-435; Python juxtaposed string literals concatenate,
yielding the doubled spaces). -/
def portChannelMsg : String :=
  "MLX does not allow ACL configuration on  port channel interface." ++
    " Configure ACL on  ports part of port channel"

/-- Embeds `Acl.apply_acl` (acl.py:398-471). -/
def apply_acl (cb : Cb) (aclName intfType : String) (intfNames : List String)
    (aclDirection : String) : List Batch × Except Err String :=
  if intfNames.isEmpty then ([], .error (.valueError "No Interface specified"))
  else
    match get_address_type cb aclName with
    | .error e => (aclListingTrace, .error e)
    | .ok addressType =>
      if (addressType = "mac" || addressType = "ip" || addressType = "ipv6") = false then
        (aclListingTrace, .error (.valueError (addressType ++ " not supported")))
      else if addressType = "mac" && intfType ≠ "ethernet" then
        (aclListingTrace, .error (.valueError ("intf type:" ++ intfType ++ " not supported")))
      else if intfType = "port_channel" then
        (aclListingTrace, .error (.valueError portChannelMsg))
      else
        match probeLoop cb intfType intfNames with
        | (tr, .error e) => (aclListingTrace ++ tr, .error e)
        | (tr, .ok _) =>
          match bindLoop cb aclName addressType intfType aclDirection intfNames with
          | (tr2, .error e) => (aclListingTrace ++ tr ++ tr2, .error e)
          | (tr2, .ok _) => (aclListingTrace ++ tr ++ tr2, .ok "apply_acl: Successful")

/-- The rule-body post-processing of `Acl.add_l2_acl_rule`
(acl.py:226-227): strip characters outside `[A-Za-z0-9 .-]`, then
collapse whitespace. -/
def l2_rule_post_process (config : String) : String :=
  pyCollapse (stripDisallowed config)

/-- The rule-body post-processing of `Acl.add_ipv4_rule_acl`
(acl.py:644): whitespace collapse only — the source applies no
character stripping on this path. -/
def ipv4_rule_post_process (config : String) : String :=
  pyCollapse config

/-- The rule-body post-processing of `Acl.add_ipv6_rule_acl`
(acl.py:909): whitespace collapse only — the source applies no
character stripping on this path. -/
def ipv6_rule_post_process (config : String) : String :=
  pyCollapse config

/-- Modelled from the spec: `acl_template.add_ip_extended_acl_rule_template`
(`acl_template.py` is not under `src/`).  Section 4.3: each non-absent
fragment is substituted into its named slot, absent fragments render as
the empty string with slot positions preserved, adjacent slots are
separated by the template literal whitespace; section 4.2 fixes the
fragment order (sequence, action, protocol, source, destination, then
the cross-cutting fields). -/
def add_ip_extended_acl_rule_render (seq action protocol source dst opts : String) :
    String :=
  seq ++ " " ++ action ++ " " ++ protocol ++ " " ++ source ++ " " ++ dst ++ " " ++ opts

/-- A command executor whose device returns empty output for every
query: no ACL exists on the device. -/
def emptyCb : Cb := fun _handler _cmds => ""

/-- A command executor whose ACL listing reports one extended IP ACL
named `Acl1`. -/
def demoListingCb : Cb := fun _handler cmds =>
  if cmds = [showAccessListAllCmd] then "ip access-list extended Acl1" else ""

/-- A command executor whose ACL listing reports one extended IP ACL
named `Acl1`, whose rule listing holds the sequence numbers 10 and 20. -/
def demoRuleCb : Cb := fun _handler cmds =>
  if cmds = [showAccessListAllCmd] then "ip access-list extended Acl1"
  else if cmds = [pyCollapse (showListCmd "ip" "Acl1")] then
    "10: permit any any\n20: deny any any"
  else ""

/- ### Helper lemmas -/

theorem mem_of_mem_wordsGo : ∀ (cs acc w : List Char) (c : Char),
    w ∈ wordsGo cs acc → c ∈ w → c ∈ cs ∨ c ∈ acc := by
  intro cs
  induction cs with
  | nil =>
    intro acc w c hw hc
    unfold wordsGo at hw
    by_cases h : acc.isEmpty
    · simp [h] at hw
    · simp [h] at hw
      subst hw
      exact Or.inr (List.mem_reverse.mp hc)
  | cons d rest ih =>
    intro acc w c hw hc
    unfold wordsGo at hw
    by_cases hs : pyIsSpace d
    · simp only [hs, if_true] at hw
      by_cases ha : acc.isEmpty
      · simp only [ha, if_true] at hw
        rcases ih [] w c hw hc with h | h
        · exact Or.inl (List.mem_cons_of_mem _ h)
        · simp at h
      · simp only [ha, if_false] at hw
        rcases List.mem_cons.mp hw with h | h
        · subst h
          exact Or.inr (List.mem_reverse.mp hc)
        · rcases ih [] w c h hc with h2 | h2
          · exact Or.inl (List.mem_cons_of_mem _ h2)
          · simp at h2
    · simp only [hs, if_false] at hw
      rcases ih (d :: acc) w c hw hc with h | h
      · exact Or.inl (List.mem_cons_of_mem _ h)
      · rcases List.mem_cons.mp h with h2 | h2
        · subst h2
          exact Or.inl (List.mem_cons_self _ _)
        · exact Or.inr h2

theorem mem_of_mem_joinWords : ∀ (ws : List (List Char)) (c : Char),
    c ∈ joinWords ws → c = ' ' ∨ ∃ w, w ∈ ws ∧ c ∈ w := by
  intro ws
  induction ws with
  | nil =>
    intro c hc
    simp [joinWords] at hc
  | cons w ws ih =>
    intro c hc
    cases ws with
    | nil =>
      exact Or.inr ⟨w, by simp, hc⟩
    | cons v vs =>
      rw [show joinWords (w :: v :: vs) = w ++ ' ' :: joinWords (v :: vs) from rfl,
        List.mem_append] at hc
      rcases hc with h | h
      · exact Or.inr ⟨w, by simp, h⟩
      · rcases List.mem_cons.mp h with h2 | h2
        · exact Or.inl h2
        · rcases ih c h2 with h3 | ⟨u, hu, hcu⟩
          · exact Or.inl h3
          · exact Or.inr ⟨u, List.mem_cons_of_mem _ hu, hcu⟩

/-- Stripping then collapsing leaves only characters of the allowed
class: the space separator is allowed and every word character
survives the filter. -/
theorem allowed_l2_post_process (r : String) :
    allAllowed (l2_rule_post_process r) = true := by
  rw [allAllowed, List.all_eq_true]
  intro c hc
  have hc2 : c ∈ joinWords (wordsGo (r.data.filter isAllowedChar) []) := hc
  rcases mem_of_mem_joinWords _ c hc2 with h | ⟨w, hw, hcw⟩
  · subst h
    decide
  · rcases mem_of_mem_wordsGo _ _ _ _ hw hcw with h | h
    · exact List.of_mem_filter h
    · simp at h

/-- A classified listing line always reports one of the three known
protocols. -/
theorem classifyLine_protocol {line : String} {r : AclId}
    (h : classifyLine line = some r) :
    r.protocol = "mac" ∨ r.protocol = "ip" ∨ r.protocol = "ipv6" := by
  unfold classifyLine at h
  split at h
  · cases h; simp
  · split at h
    · cases h; simp
    · split at h
      · cases h; simp
      · cases h

/-- The protocol of a successfully resolved ACL identity is one of the
three known protocols. -/
theorem get_acl_protocol {cb : Cb} {aclName : String} {ret : AclId}
    (h : get_acl_address_and_acl_type cb aclName = .ok ret) :
    ret.protocol = "mac" ∨ ret.protocol = "ip" ∨ ret.protocol = "ipv6" := by
  simp only [get_acl_address_and_acl_type] at h
  split at h
  · split at h
    · cases h
      exact classifyLine_protocol (by assumption)
    · cases h
  · cases h

theorem keyInOrNotTruthy_of_hasKey {params : Params} {k : String}
    (h : hasKey params k = true) : keyInOrNotTruthy params k = .ok true := by
  unfold keyInOrNotTruthy
  rw [h]
  rfl

theorem keyInOrNotTruthy_of_not_hasKey {params : Params} {k : String}
    (h : hasKey params k = false) :
    keyInOrNotTruthy params k = .error (.keyError k) := by
  cases hg : getParam params k with
  | none =>
    have hi : getItem params k = .error (.keyError k) := by
      unfold getItem
      rw [hg]
    unfold keyInOrNotTruthy
    rw [hi, h]
    rfl
  | some v =>
    rw [hasKey, hg] at h
    simp at h

theorem find?_eq_none_of_all_not {l : List String} {name : String}
    (h : (l.all (fun line => !strContains line name)) = true) :
    l.find? (fun line => strContains line name) = none := by
  rw [List.find?_eq_none]
  intro x hx
  have h2 := (List.all_eq_true.mp h) x hx
  simp only [Bool.not_eq_eq_eq_not, Bool.not_true] at h2
  simp [h2]

/-- Any output free of the error marker is interpreted as success. -/
theorem processCliOutput_ok {op config output : String}
    (h : strContains output "Error" = false) :
    processCliOutput op config output = .ok (op ++ ": Successful") := by
  unfold processCliOutput
  rw [h]
  split
  · rfl
  · simp

/- ### Claim theorems -/

/-- C1: the protocol_type parser is claimed (and documented in its own
docstring) to accept every bare numeric string in `[0,255]`, returning
it unchanged, while rejecting `256` and `bogus` and accepting `tcp`.
The code instead rejects `255` (and every other in-range numeric
string): the numeric range check is not followed by a return, so a
digit string also has to pass the keyword-membership test, which no
digit string does.  This theorem evaluates the embedded parser at the
four claimed inputs, exhibiting the divergence at `255`. -/
theorem c1_protocol_numeric_rejected :
    parse_protocol [("protocol_type", Value.str "255")] =
      .error (.valueError "invalid protocol_type value 255.") ∧
    parse_protocol [("protocol_type", Value.str "256")] =
      .error (.valueError
        "The protocol value 256 is invalid. Specify 0-255 supported values") ∧
    parse_protocol [("protocol_type", Value.str "tcp")] = .ok (some "tcp") ∧
    parse_protocol [("protocol_type", Value.str "bogus")] =
      .error (.valueError "invalid protocol_type value bogus.") := by
  refine ⟨?_, ?_, ?_, ?_⟩ <;> rfl

/-- C2: the log parser is claimed to return absent when `log` is absent
or falsy, to fail with ConflictingParameters when `log` and `mirror`
are both truthy, and to return the fragment `log` when `log` is truthy
and `mirror` absent/falsy.  The code has the presence test inverted (key membership OR item
falsiness instead of key absence): with both `log` and
`mirror` truthy it returns `None`; with `log` truthy alone it also
returns `None` instead of the fragment; and with `log` absent it
raises `KeyError` instead of returning absent.  This theorem evaluates
the embedded parser at those three divergent inputs. -/
theorem c2_log_parser_inverted :
    parse_log [("log", Value.str "log"), ("mirror", Value.str "mirror")] = .ok none ∧
    parse_log [("log", Value.str "log")] = .ok none ∧
    parse_log [] = .error (.keyError "log") := by
  refine ⟨?_, ?_, ?_⟩ <;> rfl

/-- C4: when `option` is set, protocol_type is tcp/udp, and a tcp/udp
operator token occurs in the destination but not in the source, the
parser is claimed to fail with ConflictingParameters.  The code checks
the collapsed `src` variable a second time in the destination branch
(ipacl.py:448 recomputes the destination from `src`), so the
destination is never examined: the call succeeds and returns the
option fragment.
The second conjunct shows the intended check does fire when the
operator token is in the source, confirming the slip is specific to
the destination branch. -/
theorem c4_option_destination_check_bypassed :
    parse_option [("option", Value.str "security"), ("protocol_type", Value.str "tcp"),
      ("source", Value.str "any"), ("destination", Value.str "any eq 22")] =
      .ok (some "option security") ∧
    parse_option [("option", Value.str "security"), ("protocol_type", Value.str "tcp"),
      ("source", Value.str "any eq 22")] =
      .error (.valueError optionOpstrMsg) := by
  refine ⟨?_, ?_⟩ <;> rfl

/-- C3 counterexample: the claim that every rule-add operation strips
characters outside `[A-Za-z0-9 .-]` before submission fails for
`add_ipv4_rule_acl`.  The source fragment `10.0.0.0/24 ` (produced by
the source parser, first conjunct) flows into the rendered extended
rule body; the ipv4 post-processing collapses whitespace only, leaving
the `/` in the submitted command (third and fourth conjuncts), whereas
the claimed character removal would have produced `10.0.0.024` (last
conjunct, the l2 post-processing applied to the same rendering). -/
theorem c3_rule_body_stripping_counterexample :
    parse_source [("source", Value.str "10.0.0.0/24"),
      ("protocol_type", Value.str "ip")] = .ok "10.0.0.0/24 " ∧
    parse_destination [("destination", Value.str "any"),
      ("protocol_type", Value.str "ip")] = .ok (some "any ") ∧
    ipv4_rule_post_process
        (add_ip_extended_acl_rule_render "" "permit" "ip" "10.0.0.0/24 " "any " "") =
      "permit ip 10.0.0.0/24 any" ∧
    allAllowed (ipv4_rule_post_process
        (add_ip_extended_acl_rule_render "" "permit" "ip" "10.0.0.0/24 " "any " "")) =
      false ∧
    l2_rule_post_process
        (add_ip_extended_acl_rule_render "" "permit" "ip" "10.0.0.0/24 " "any " "") =
      "permit ip 10.0.0.024 any" := by
  refine ⟨?_, ?_, ?_, ?_, ?_⟩ <;> rfl

/-- C3 (amended): only `add_l2_acl_rule` post-processes its rendered
rule body by removing every character outside `[A-Za-z0-9 .-]` and then
collapsing whitespace — so its submitted rule-body command contains
only characters of that class — while `add_ipv4_rule_acl` and
`add_ipv6_rule_acl` apply the whitespace collapse only, so characters
outside the class (such as `/` in a prefix-length source) can appear in
their submitted rule bodies. -/
theorem c3_rule_body_postprocessing_amended (r : String) :
    l2_rule_post_process r = pyCollapse (stripDisallowed r) ∧
    allAllowed (l2_rule_post_process r) = true ∧
    ipv4_rule_post_process r = pyCollapse r ∧
    ipv6_rule_post_process r = pyCollapse r :=
  ⟨rfl, allowed_l2_post_process r, rfl, rfl⟩

/-- C5 counterexample: the claim that every integer `vlan_id` outside
`[1,4095]` — including 0 — fails with InvalidValue is false at 0: the
parser treats the falsy value 0 as absent and returns `None` without
raising. -/
theorem c5_vlan_zero_counterexample :
    parse_vlan [("vlan_id", Value.int 0)] = .ok none := by
  rfl

/-- C5 (amended): a `vlan_id` of 0 is treated as absent (returns
`None`); every other integer `vlan_id` outside `[1,4095]` fails with
InvalidValue; and every `vlan_id` in `[1,4095]` returns exactly the
decimal string form of the integer. -/
theorem c5_vlan_range_amended (n : Int) :
    (n = 0 → parse_vlan [("vlan_id", Value.int n)] = .ok none) ∧
    (n ≠ 0 → (n < 1 ∨ 4095 < n) →
      parse_vlan [("vlan_id", Value.int n)] = .error (.valueError vlanInvalidMsg)) ∧
    (1 ≤ n → n ≤ 4095 →
      parse_vlan [("vlan_id", Value.int n)] = .ok (some (toString n))) := by
  have hg : getParam [("vlan_id", Value.int n)] "vlan_id" = some (Value.int n) := rfl
  refine ⟨?_, ?_, ?_⟩
  · rintro rfl
    rfl
  · intro h0 hrange
    have ht : truthy (Value.int n) = true := by
      simp [truthy, h0]
    have hc : (decide (0 < n) && decide (n < 4096)) = false := by
      rcases hrange with h | h
      · have h2 : ¬ 0 < n := by omega
        simp [h2]
      · have h2 : ¬ n < 4096 := by omega
        simp [h2]
    simp [parse_vlan, hg, ht, hc]
  · intro h1 h2
    have ht : truthy (Value.int n) = true := by
      have h0 : n ≠ 0 := by omega
      simp [truthy, h0]
    have hc : (decide (0 < n) && decide (n < 4096)) = true := by
      have h3 : 0 < n := by omega
      have h4 : n < 4096 := by omega
      simp [h3, h4]
    simp [parse_vlan, hg, ht, hc]

/-- C5 amended witness: the amended theorem applied at the concrete
out-of-range input 4096 and the in-range input 10. -/
theorem c5_vlan_range_amended_witness :
    parse_vlan [("vlan_id", Value.int 4096)] = .error (.valueError vlanInvalidMsg) ∧
    parse_vlan [("vlan_id", Value.int 10)] = .ok (some "10") :=
  ⟨(c5_vlan_range_amended 4096).2.1 (by decide) (by decide),
   (c5_vlan_range_amended 10).2.2 (by decide) (by decide)⟩

/-- C9: for every parameter bag in which both `priority` and
`priority_force` are present and truthy, both parsers of the pair fail
with the ConflictingParameters error — the conflict check precedes the
range check, so this holds regardless of whether either value lies in
`[0,7]` — and hence the fail-fast rule build aborts with this error
when it reaches the priority family. -/
theorem c9_priority_conflict (params : Params)
    (h1 : keyTruthy params "priority" = true)
    (h2 : keyTruthy params "priority_force" = true) :
    parse_priority params = .error (.valueError priorityConflictMsg) ∧
    parse_priority_force params = .error (.valueError priorityConflictMsg) := by
  constructor
  · simp [parse_priority, h1, h2]
  · simp [parse_priority_force, h1, h2]

/-- C9 witness: both priority values present, truthy and far outside
the valid range `[0,7]`; the conflict error is still raised. -/
theorem c9_priority_conflict_witness :
    parse_priority [("priority", Value.int 99), ("priority_force", Value.int 42)] =
      .error (.valueError priorityConflictMsg) ∧
    parse_priority_force [("priority", Value.int 99), ("priority_force", Value.int 42)] =
      .error (.valueError priorityConflictMsg) :=
  c9_priority_conflict [("priority", Value.int 99), ("priority_force", Value.int 42)]
    (by rfl) (by rfl)

/-- C10: the mirror parser never returns the fragment `mirror`: when
the bag contains the `mirror` key (truthy or not) it returns `None`,
and when the bag lacks the key it raises `KeyError`; in particular the
action-must-be-permit check after the opening test is unreachable and
the mirror fragment can never be rendered into a rule. -/
theorem c10_mirror_never_renders (params : Params) :
    (hasKey params "mirror" = true → parse_mirror params = .ok none) ∧
    (hasKey params "mirror" = false →
      parse_mirror params = .error (.keyError "mirror")) ∧
    ∀ s : String, parse_mirror params ≠ .ok (some s) := by
  have hmain : (hasKey params "mirror" = true → parse_mirror params = .ok none) ∧
      (hasKey params "mirror" = false →
        parse_mirror params = .error (.keyError "mirror")) := by
    constructor
    · intro h
      unfold parse_mirror
      rw [keyInOrNotTruthy_of_hasKey h]
      rfl
    · intro h
      unfold parse_mirror
      rw [keyInOrNotTruthy_of_not_hasKey h]
      rfl
  refine ⟨hmain.1, hmain.2, ?_⟩
  intro s
  cases h : hasKey params "mirror" with
  | true => rw [hmain.1 h]; simp
  | false => rw [hmain.2 h]; simp

/-- C10 witness: the theorem applied at a bag in which `mirror` is
present and truthy (returns `None`) and at the empty bag (raises
`KeyError`). -/
theorem c10_mirror_never_renders_witness :
    parse_mirror [("mirror", Value.str "mirror")] = .ok none ∧
    parse_mirror [] = .error (.keyError "mirror") :=
  ⟨(c10_mirror_never_renders [("mirror", Value.str "mirror")]).1 (by rfl),
   (c10_mirror_never_renders []).2.1 (by rfl)⟩

/-- C6: `delete_acl` first resolves the ACL protocol and type by
querying the live device listings (the two `cli-get` listing queries of
`get_acl_address_and_acl_type`); the delete command it submits is
rendered from the device-reported identity (the caller supplies only
the name, so no caller-supplied type can be used); and when no listing
line contains the name, the call fails with the AclNotFound error and
submits no `cli-set` command at all. -/
theorem c6_delete_acl_resolves_from_device (cb : Cb) (aclName : String) :
    (∀ e, get_acl_address_and_acl_type cb aclName = .error e →
      delete_acl cb aclName = (aclListingTrace, .error e)) ∧
    (((pySplitNl (cb "cli-get" [showAccessListAllCmd]) ++
        pySplitNl (cb "cli-get" [showIpv6AccessListCmd])).all
          (fun line => !strContains line aclName)) = true →
      delete_acl cb aclName =
        (aclListingTrace, .error (.valueError (aclNotFoundMsg aclName)))) ∧
    (aclListingTrace.all (fun b => b.handler == "cli-get")) = true ∧
    (∀ ret cfg, get_acl_address_and_acl_type cb aclName = .ok ret →
      renderDeleteCmd ret aclName = some cfg →
      (delete_acl cb aclName).1 = aclListingTrace ++ [⟨"cli-set", [cfg]⟩]) := by
  refine ⟨?_, ?_, by rfl, ?_⟩
  · intro e he
    simp [delete_acl, he]
  · intro hall
    have hnone : (pySplitNl (cb "cli-get" [showAccessListAllCmd]) ++
        pySplitNl (cb "cli-get" [showIpv6AccessListCmd])).find?
          (fun line => strContains line aclName) = none :=
      find?_eq_none_of_all_not hall
    have he : get_acl_address_and_acl_type cb aclName =
        .error (.valueError (aclNotFoundMsg aclName)) := by
      simp only [get_acl_address_and_acl_type]
      rw [hnone]
    simp [delete_acl, he]
  · intro ret cfg h1 h2
    simp [delete_acl, h1, h2]

/-- C6 witness: on a device listing `Acl1` as an extended IP ACL the
submitted delete command is rendered from the device-reported identity;
on a device reporting nothing, `delete_acl` fails with the AclNotFound
error and the trace holds only the two listing queries. -/
theorem c6_delete_acl_resolves_from_device_witness :
    (delete_acl demoListingCb "Acl1").1 =
      aclListingTrace ++ [⟨"cli-set", ["no ip access-list extended Acl1"]⟩] ∧
    delete_acl emptyCb "Acl0" =
      (aclListingTrace, .error (.valueError (aclNotFoundMsg "Acl0"))) :=
  ⟨(c6_delete_acl_resolves_from_device demoListingCb "Acl1").2.2.2
      ⟨"ip", "extended"⟩ "no ip access-list extended Acl1" (by rfl) (by rfl),
   (c6_delete_acl_resolves_from_device emptyCb "Acl0").2.1 (by rfl)⟩

/-- C7: when the requested sequence id does not appear as a leading
integer token (before `:`) on any line of the live rule listing for a
resolved ACL (and the listing itself carries no device error marker),
`delete_ipv4_acl_rule` fails with the SequenceNotFound error and its
whole executor trace consists of `cli-get` queries only: no
delete-by-sequence (`cli-set`) command is ever submitted. -/
theorem c7_delete_rule_seq_not_found (cb : Cb) (aclName : String) (seqId : Int)
    (ret : AclId)
    (hname : aclName ≠ "")
    (hseq : seqId ≠ 0)
    (hacl : get_acl_address_and_acl_type cb aclName = .ok ret)
    (hout : strContains (cb "cli-get" [pyCollapse (showListCmd ret.protocol aclName)])
      "Error" = false)
    (habs : seqIdInLines (cb "cli-get" [pyCollapse (showListCmd ret.protocol aclName)])
      seqId = false) :
    (delete_ipv4_acl_rule cb aclName seqId).2 =
      .error (.valueError (seqNotFoundMsg seqId aclName)) ∧
    ((delete_ipv4_acl_rule cb aclName seqId).1.all
      (fun b => b.handler == "cli-get")) = true := by
  have hga : get_acl_type cb aclName = .ok ret.type := by
    unfold get_acl_type
    rw [hacl]
    rfl
  have hgp : get_address_type cb aclName = .ok ret.protocol := by
    unfold get_address_type
    rw [hacl]
    rfl
  have hmem : (ret.protocol = "mac" || ret.protocol = "ip" || ret.protocol = "ipv6")
      = true := by
    rcases get_acl_protocol hacl with h | h | h <;> simp [h]
  have hv : is_valid_seq_id cb seqId aclName =
      (aclListingTrace ++
        [⟨"cli-get", [pyCollapse (showListCmd ret.protocol aclName)]⟩],
        .error (.valueError (seqNotFoundMsg seqId aclName))) := by
    unfold is_valid_seq_id
    rw [if_neg hname, if_neg (by simp [hseq]), hgp]
    simp only [hmem, if_true]
    rw [processCliOutput_ok hout]
    simp only [habs, Bool.false_eq_true, if_false]
  constructor
  · simp [delete_ipv4_acl_rule, hga, hv]
  · simp [delete_ipv4_acl_rule, hga, hv, List.all_append, aclListingTrace]

/-- C7 witness: the theorem applied to a device reporting `Acl1` as an
extended IP ACL whose rule listing holds sequence numbers 10 and 20,
with the absent sequence id 30. -/
theorem c7_delete_rule_seq_not_found_witness :
    (delete_ipv4_acl_rule demoRuleCb "Acl1" 30).2 =
      .error (.valueError (seqNotFoundMsg 30 "Acl1")) ∧
    ((delete_ipv4_acl_rule demoRuleCb "Acl1" 30).1.all
      (fun b => b.handler == "cli-get")) = true :=
  c7_delete_rule_seq_not_found demoRuleCb "Acl1" 30 ⟨"ip", "extended"⟩
    (by decide) (by decide) (by rfl) (by rfl) (by rfl)

/-- C8 counterexample: with the port_channel interface type but an ACL
name unknown to the device, `apply_acl` fails with the AclNotFound
error of the listing resolution — not with the UnsupportedInterfaceType
(port-channel) error the claim names for every `acl_name`. -/
theorem c8_port_channel_counterexample :
    (apply_acl emptyCb "Acl_1" "port_channel" ["ethernet 1/1"] "in").2 =
      .error (.valueError (aclNotFoundMsg "Acl_1")) ∧
    aclNotFoundMsg "Acl_1" ≠ portChannelMsg := by
  constructor
  · rfl
  · decide

/-- C8 (amended): for every `apply_acl` call with the port_channel
interface type and a non-empty interface list, the whole
executor trace consists of `cli-get` listing queries only — no
interface-submode probe and no bind command is ever submitted — and the
call fails: with an UnsupportedInterfaceType error (the port-channel
rejection, or the mac-ACL interface-type rejection) whenever the ACL
resolves on the device, and with the resolution error (AclNotFound)
otherwise. -/
theorem c8_port_channel_amended (cb : Cb) (aclName aclDirection : String)
    (intfNames : List String) (h : intfNames ≠ []) :
    ((apply_acl cb aclName "port_channel" intfNames aclDirection).1.all
      (fun b => b.handler == "cli-get")) = true ∧
    (∀ ret, get_acl_address_and_acl_type cb aclName = .ok ret →
      (apply_acl cb aclName "port_channel" intfNames aclDirection).2 =
          .error (.valueError portChannelMsg) ∨
      (apply_acl cb aclName "port_channel" intfNames aclDirection).2 =
          .error (.valueError "intf type:port_channel not supported")) ∧
    (∀ e, get_acl_address_and_acl_type cb aclName = .error e →
      (apply_acl cb aclName "port_channel" intfNames aclDirection).2 = .error e) := by
  have hne : intfNames.isEmpty = false := by
    cases intfNames with
    | nil => exact absurd rfl h
    | cons a l => rfl
  cases hg : get_acl_address_and_acl_type cb aclName with
  | error e =>
    have hat : get_address_type cb aclName = .error e := by
      unfold get_address_type
      rw [hg]
      rfl
    have happ : apply_acl cb aclName "port_channel" intfNames aclDirection =
        (aclListingTrace, .error e) := by
      simp [apply_acl, hne, hat]
    refine ⟨by simp [happ, aclListingTrace], ?_, ?_⟩
    · intro ret hret
      cases hret
    · intro e2 he2
      injection he2 with he3
      subst he3
      simp [happ]
  | ok ret =>
    have hat : get_address_type cb aclName = .ok ret.protocol := by
      unfold get_address_type
      rw [hg]
      rfl
    have happ : apply_acl cb aclName "port_channel" intfNames aclDirection =
        (aclListingTrace, .error (.valueError portChannelMsg)) ∨
        apply_acl cb aclName "port_channel" intfNames aclDirection =
        (aclListingTrace, .error (.valueError "intf type:port_channel not supported")) := by
      rcases get_acl_protocol hg with hp | hp | hp
      · right
        simp [apply_acl, hne, hat, hp]
      · left
        simp [apply_acl, hne, hat, hp]
      · left
        simp [apply_acl, hne, hat, hp]
    refine ⟨?_, ?_, ?_⟩
    · rcases happ with happ | happ <;> simp [happ, aclListingTrace]
    · intro ret2 hret2
      rcases happ with happ | happ
      · exact Or.inl (by simp [happ])
      · exact Or.inr (by simp [happ])
    · intro e2 he2
      cases he2

/-- C8 amended witness: the amended theorem applied to a device
listing `Acl1` as an extended IP ACL; the call fails with the
port-channel rejection and the trace holds only listing queries. -/
theorem c8_port_channel_amended_witness :
    ((apply_acl demoListingCb "Acl1" "port_channel" ["ethernet 1/1"] "in").1.all
      (fun b => b.handler == "cli-get")) = true ∧
    (apply_acl demoListingCb "Acl1" "port_channel" ["ethernet 1/1"] "in").2 =
      .error (.valueError portChannelMsg) :=
  ⟨(c8_port_channel_amended demoListingCb "Acl1" "in" ["ethernet 1/1"]
      (by simp)).1, by rfl⟩

end PySwitchLib
